import Mathlib

/-!
Verification development for the ucw raw MCP server.

Shallow embedding of the message pipeline of the repository:
  - `src/ucw/server/protocol.py`  (JSON-RPC validation and frame builders)
  - `src/ucw/server/capture.py`   (CaptureEvent / CaptureEngine)
  - `src/ucw/server/transport.py` (RawStdioTransport)
  - `src/ucw/server/router.py`    (Router tools/call dispatch)
  - `src/ucw/server/server.py`    (RawMCPServer read loop and shutdown)

Python JSON values are modelled by `JValue`; Python dicts produced by
`json.loads` are modelled as association lists with unique keys, looked up
by key.  Python exceptions raised by pluggable collaborators (enrichment
bridge, database sink, observer callbacks, tool handlers) are modelled as
`Except` results; the `try/except` blocks of the source become explicit
matches that discard the error branch exactly where the source catches,
logs and swallows.
-/

/-- A decoded JSON value (the result of `json.loads` / argument of
`json.dumps`).  Numbers are modelled as integers: every id exercised by the
protocol and its tests is an integer or a string. -/
inductive JValue where
  | null
  | bool (b : Bool)
  | num (n : Int)
  | str (s : String)
  | arr (xs : List JValue)
  | obj (fields : List (String × JValue))

/-- A decoded frame: a Python dict, modelled as an association list.  Keys
are unique (Python dicts cannot hold duplicates). -/
abbrev Frame := List (String × JValue)

/-- First-match association-list lookup, the model of Python dict key
lookup (on unique-key lists first match is the only match). -/
def lookupAssoc {α : Type} : List (String × α) → String → Option α
  | [], _ => Option.none
  | (k, v) :: rest, key => if k == key then some v else lookupAssoc rest key

/-- Model of the Python `key in dict` test: key presence, regardless of the
stored value (a stored JSON `null` still counts as present). -/
def hasKey (fields : Frame) (key : String) : Bool :=
  (lookupAssoc fields key).isSome

/-- Model of Python `dict.get(key)`: `None` both when the key is absent and
when the stored value is JSON `null` (which `json.loads` decodes to the
Python `None` object). -/
def pyGet (fields : Frame) (key : String) : Option JValue :=
  match lookupAssoc fields key with
  | some JValue.null => Option.none
  | o => o

/-- Model of Python `dict.get(key, default)`: the default applies only when
the key is absent; a stored `null` is returned as-is. -/
def pyGetD (fields : Frame) (key : String) (dflt : JValue) : JValue :=
  match lookupAssoc fields key with
  | some v => v
  | Option.none => dflt

/-- Model of Python `str(...)` on a decoded JSON value, used to stringify
correlation ids (`str(event.request_id)`, transport's `str(request_id)`).
Exact for `None`, booleans, integers and strings — the only id shapes the
protocol produces; the container renderings abstract Python's element-wise
repr, which no claim evaluates. -/
def pyStr : JValue → String
  | JValue.null => "None"
  | JValue.bool true => "True"
  | JValue.bool false => "False"
  | JValue.num n => toString n
  | JValue.str s => s
  | JValue.arr _ => "<list>"
  | JValue.obj _ => "<dict>"

/-- Model of Python truthiness (`if not name:`) on a decoded JSON value. -/
def pyFalsy : JValue → Bool
  | JValue.null => true
  | JValue.bool b => !b
  | JValue.num n => n == 0
  | JValue.str s => s == ""
  | JValue.arr xs => xs.isEmpty
  | JValue.obj fs => fs.isEmpty

mutual

/-- Rendering of a JSON value with `separators=(",", ":")`, the model of
the stdlib `json.dumps` call in `RawStdioTransport.write_message`.  String
escaping is not modelled (external stdlib behaviour; no claim inspects the
produced bytes). -/
def renderJson : JValue → String
  | JValue.null => "null"
  | JValue.bool true => "true"
  | JValue.bool false => "false"
  | JValue.num n => toString n
  | JValue.str s => "\"" ++ s ++ "\""
  | JValue.arr xs => "[" ++ renderArr xs ++ "]"
  | JValue.obj fs => "\x7b" ++ renderObj fs ++ "\x7d"

/-- Comma-joined rendering of a JSON array's elements. -/
def renderArr : List JValue → String
  | [] => ""
  | [x] => renderJson x
  | x :: y :: rest => renderJson x ++ "," ++ renderArr (y :: rest)

/-- Comma-joined rendering of a JSON object's key/value pairs. -/
def renderObj : List (String × JValue) → String
  | [] => ""
  | [(k, v)] => "\"" ++ k ++ "\":" ++ renderJson v
  | (k, v) :: p :: rest => "\"" ++ k ++ "\":" ++ renderJson v ++ "," ++ renderObj (p :: rest)

end

/-- Byte sequence of a string, as code points (identical to UTF-8 for the
ASCII wire frames the server produces; only stored on events, never
inspected by a claim). -/
def strBytes (s : String) : List Nat :=
  s.data.map (fun c => c.toNat)

/-- The serialized on-wire bytes of an outbound frame:
`json.dumps(message, separators=(",", ":")) + "\n"` encoded to bytes
(`transport.py` lines 85-86). -/
def encodeFrame (message : Frame) : List Nat :=
  strBytes (renderJson (JValue.obj message) ++ "\n")

/-! ## protocol.py — stateless JSON-RPC 2.0 helpers -/

/-- `ProtocolError(code, message, data)` from `protocol.py`. -/
structure ProtocolError where
  code : Int
  message : String
  data : Option JValue

/-- Standard JSON-RPC error code `PARSE_ERROR` (`protocol.py` line 25). -/
def PARSE_ERROR : Int := -32700

/-- Standard JSON-RPC error code `INVALID_REQUEST` (`protocol.py` line 26). -/
def INVALID_REQUEST : Int := -32600

/-- Standard JSON-RPC error code `METHOD_NOT_FOUND` (`protocol.py` line 27). -/
def METHOD_NOT_FOUND : Int := -32601

/-- Standard JSON-RPC error code `INVALID_PARAMS` (`protocol.py` line 28). -/
def INVALID_PARAMS : Int := -32602

/-- Standard JSON-RPC error code `INTERNAL_ERROR` (`protocol.py` line 29). -/
def INTERNAL_ERROR : Int := -32603

/-- `validate_message` (`protocol.py` lines 32-55).  The argument is an
arbitrary decoded JSON value because the source guards `isinstance(msg,
dict)` first.  The source compares `msg.get("jsonrpc") != "2.0"`, which
succeeds exactly when the key holds the string `"2.0"`; the classification
then tests key presence (`"id" in msg` etc.), with `method` taking
precedence over `result` and `error`. -/
def validate_message (msg : JValue) : Except ProtocolError String :=
  match msg with
  | JValue.obj fields =>
    match lookupAssoc fields "jsonrpc" with
    | some (JValue.str v) =>
      if v == "2.0" then
        if hasKey fields "method" then
          Except.ok (if hasKey fields "id" then "request" else "notification")
        else if hasKey fields "result" && hasKey fields "id" then
          Except.ok "response"
        else if hasKey fields "error" && hasKey fields "id" then
          Except.ok "error"
        else
          Except.error ⟨INVALID_REQUEST, "Cannot determine message type", Option.none⟩
      else
        Except.error ⟨INVALID_REQUEST, "Expected jsonrpc=2.0", Option.none⟩
    | _ => Except.error ⟨INVALID_REQUEST, "Expected jsonrpc=2.0", Option.none⟩
  | _ => Except.error ⟨INVALID_REQUEST, "Message must be a JSON object", Option.none⟩

/-- `make_response(request_id, result)` (`protocol.py` lines 58-64). -/
def make_response (request_id : JValue) (result : JValue) : Frame :=
  [("jsonrpc", JValue.str "2.0"), ("id", request_id), ("result", result)]

/-- `make_error(request_id, code, message, data)` (`protocol.py` lines
67-81).  A Python `None` id is passed as `JValue.null` (the dict still
carries the `id` key, serialized as JSON `null`). -/
def make_error (request_id : JValue) (code : Int) (message : String)
    (data : Option JValue) : Frame :=
  [("jsonrpc", JValue.str "2.0"), ("id", request_id),
   ("error", JValue.obj
     ([("code", JValue.num code), ("message", JValue.str message)] ++
      (match data with
       | some d => [("data", d)]
       | Option.none => [])))]

/-- `make_notification(method, params)` (`protocol.py` lines 84-89). -/
def make_notification (method : String) (params : Option Frame) : Frame :=
  [("jsonrpc", JValue.str "2.0"), ("method", JValue.str method)] ++
  (match params with
   | some p => [("params", JValue.obj p)]
   | Option.none => [])

/-- `text_content(text)` (`protocol.py` lines 130-132). -/
def text_content (text : String) : JValue :=
  JValue.obj [("type", JValue.str "text"), ("text", JValue.str text)]

/-- `tool_result_content(content, is_error)` (`protocol.py` lines 119-127):
the `isError` key is present (and `true`) exactly when the flag is set. -/
def tool_result_content (content : List JValue) (isErrorFlag : Bool) : Frame :=
  [("content", JValue.arr content)] ++
  (if isErrorFlag then [("isError", JValue.bool true)] else [])

/-! ## capture.py — CaptureEvent and CaptureEngine -/

/-- `CaptureEvent` (`capture.py` lines 25-63).  `uuid.uuid4().hex[:16]` is a
process-unique fresh identifier string; it is modelled by the decimal
rendering of a counter drawn from the engine (`next_event_id`), which
preserves exactly the property the source relies on: distinct events
created by one engine get distinct identifiers.
`method` is `parsed.get("method", "")` and `request_id` is
`parsed.get("id")` (so a JSON `null` id counts as absent, as in Python
where it decodes to `None`). -/
structure CaptureEvent where
  event_id : String
  timestamp_ns : Nat
  direction : String
  stage : String
  raw_bytes : List Nat
  parsed : Frame
  method : JValue
  request_id : Option JValue
  parent_protocol_id : Option String
  turn : Nat
  error : Option String
  content_length : Nat
  data_layer : Option Frame
  light_layer : Option Frame
  instinct_layer : Option Frame
  coherence_signature : Option String

/-- The mutable state of `CaptureEngine` (`capture.py` lines 103-110):
in-memory event list, turn counter, lineage map keyed by stringified id,
per-key counters, plus the fresh-identifier source modelling `uuid4`. -/
structure CaptureEngine where
  events : List CaptureEvent
  turn_counter : Nat
  request_map : List (String × CaptureEvent)
  stats : List (String × Nat)
  next_event_id : Nat

/-- A fresh `CaptureEngine` (`CaptureEngine.__init__`). -/
def CaptureEngine.init : CaptureEngine :=
  { events := [], turn_counter := 0, request_map := [], stats := [], next_event_id := 0 }

/-- The three optional enrichment payloads plus signature that
`UCWBridgeAdapter.enrich` writes onto an event (`server.py` lines 53-66;
interface documented in the spec, section 6). -/
structure Enrichment where
  data_layer : Option Frame
  light_layer : Option Frame
  instinct_layer : Option Frame
  coherence_signature : Option String

/-- The pluggable collaborators attached to an engine: enrichment bridge
(`set_ucw_bridge`), persistence sink (`set_db_sink`) and observer
callbacks (`on_event`).  Each call is modelled as an `Except`: the error
branch is a raised Python exception, which `capture` catches, logs and
swallows. -/
structure Hooks where
  bridge : Option (CaptureEvent → Except String Enrichment)
  db_sink : Option (CaptureEvent → Except String Unit)
  callbacks : List (CaptureEvent → Except String Unit)

/-- An engine with no collaborators attached. -/
def noHooks : Hooks :=
  { bridge := Option.none, db_sink := Option.none, callbacks := [] }

/-- Python dict assignment `d[k] = v`: overwrite in place or append. -/
def insertAssoc : List (String × CaptureEvent) → String → CaptureEvent →
    List (String × CaptureEvent)
  | [], k, v => [(k, v)]
  | (k0, v0) :: rest, k, v =>
    if k0 == k then (k, v) :: rest else (k0, v0) :: insertAssoc rest k v

/-- `defaultdict(int)` increment `stats[k] += 1`. -/
def statsBump : List (String × Nat) → String → List (String × Nat)
  | [], k => [(k, 1)]
  | (k0, v) :: rest, k =>
    if k0 == k then (k0, v + 1) :: rest else (k0, v) :: statsBump rest k

/-- Read a counter out of the stats mapping (missing keys read 0, as in
`defaultdict(int)`). -/
def statsGet (s : List (String × Nat)) (k : String) : Nat :=
  match lookupAssoc s k with
  | some v => v
  | Option.none => 0

/-- The event as constructed by `CaptureEvent.__init__` inside `capture`
(`capture.py` lines 139-147): stage derived from direction, turn 0,
back-reference as passed by the transport, enrichment layers empty. -/
def baseEvent (eng : CaptureEngine) (raw : List Nat) (parsed : Frame)
    (ts : Nat) (dir : String) (ppid : Option String) (err : Option String) :
    CaptureEvent :=
  { event_id := toString eng.next_event_id
    timestamp_ns := ts
    direction := dir
    stage := if dir == "in" then "received" else "sent"
    raw_bytes := raw
    parsed := parsed
    method := pyGetD parsed "method" (JValue.str "")
    request_id := pyGet parsed "id"
    parent_protocol_id := ppid
    turn := 0
    error := err
    content_length := raw.length
    data_layer := Option.none
    light_layer := Option.none
    instinct_layer := Option.none
    coherence_signature := Option.none }

/-- Inbound turn assignment (`capture.py` lines 150-153): an inbound event
carrying an id gets the incremented turn counter. -/
def applyTurn (eng : CaptureEngine) (ev : CaptureEvent) : CaptureEvent :=
  if ev.direction == "in" && ev.request_id.isSome then
    { ev with turn := eng.turn_counter + 1 }
  else ev

/-- Outbound lineage resolution (`capture.py` lines 155-159): an outbound
event carrying an id looks up the lineage map under the stringified id;
on a hit the back-reference becomes the tracked event's identifier and the
turn is copied; on a miss the event keeps whatever back-reference the
transport supplied. -/
def applyLineage (eng : CaptureEngine) (ev : CaptureEvent) : CaptureEvent :=
  if ev.direction == "out" && ev.request_id.isSome then
    match lookupAssoc eng.request_map (pyStr (ev.request_id.getD JValue.null)) with
    | some parent =>
      { ev with parent_protocol_id := some parent.event_id, turn := parent.turn }
    | Option.none => ev
  else ev

/-- The enrichment hook call (`capture.py` lines 162-166): on success the
bridge's payloads are written onto the event; a raised exception is caught
and logged, leaving the event unchanged. -/
def applyBridge (hooks : Hooks) (ev : CaptureEvent) : CaptureEvent :=
  match hooks.bridge with
  | Option.none => ev
  | some b =>
    match b ev with
    | Except.ok enr =>
      { ev with data_layer := enr.data_layer, light_layer := enr.light_layer,
                instinct_layer := enr.instinct_layer,
                coherence_signature := enr.coherence_signature }
    | Except.error _ => ev

/-- The event in its final state after turn assignment, lineage resolution
and enrichment.  The source stores one mutable object: the entry placed in
the lineage map at line 151 is the same object later mutated at line 153
and by the bridge, so map, event list and return value all end up holding
this final state. -/
def capturedEvent (hooks : Hooks) (eng : CaptureEngine) (raw : List Nat)
    (parsed : Frame) (ts : Nat) (dir : String) (ppid : Option String)
    (err : Option String) : CaptureEvent :=
  applyBridge hooks (applyLineage eng (applyTurn eng (baseEvent eng raw parsed ts dir ppid err)))

/-- `CaptureEngine.capture` (`capture.py` lines 124-190).  Returns the new
engine state and the captured event.  The persistence sink and every
observer callback are invoked with the event; their results (including
raised exceptions) are discarded exactly as the source's `try/except`
blocks catch, log and swallow them — they cannot reach the engine state or
the caller, so `capture` is a total function. -/
def CaptureEngine.capture (hooks : Hooks) (eng : CaptureEngine)
    (raw : List Nat) (parsed : Frame) (ts : Nat) (dir : String)
    (ppid : Option String) (err : Option String) :
    CaptureEngine × CaptureEvent :=
  let ev := capturedEvent hooks eng raw parsed ts dir ppid err
  let _dbResult := hooks.db_sink.map (fun sink => sink ev)
  let _cbResults := hooks.callbacks.map (fun cb => cb ev)
  ({ events := eng.events ++ [ev]
     turn_counter :=
       if dir == "in" && (pyGet parsed "id").isSome then eng.turn_counter + 1
       else eng.turn_counter
     request_map :=
       if dir == "in" && (pyGet parsed "id").isSome then
         insertAssoc eng.request_map (pyStr ((pyGet parsed "id").getD JValue.null)) ev
       else eng.request_map
     stats :=
       statsBump
         (statsBump eng.stats (dir ++ "_" ++ (if dir == "in" then "received" else "sent")))
         "total"
     next_event_id := eng.next_event_id + 1 }, ev)

/-- One transport-level capture input, for replaying a whole session
through the engine. -/
structure CapInput where
  raw : List Nat
  parsed : Frame
  ts : Nat
  dir : String
  ppid : Option String
  err : Option String

/-- Replay a list of capture inputs through the engine, in order (the
single sequential frame-handling path of the server). -/
def runCaptures (hooks : Hooks) : CaptureEngine → List CapInput → CaptureEngine
  | eng, [] => eng
  | eng, i :: rest =>
    runCaptures hooks (CaptureEngine.capture hooks eng i.raw i.parsed i.ts i.dir i.ppid i.err).1 rest

/-- An input that takes the inbound turn-assignment branch of `capture`:
inbound direction and an id that is present and non-null. -/
def isRequestInput (i : CapInput) : Bool :=
  i.dir == "in" && (pyGet i.parsed "id").isSome

/-- The turn numbers of the captured inbound id-carrying events, in capture
order. -/
def inboundIdTurns (events : List CaptureEvent) : List Nat :=
  (events.filter (fun e => e.direction == "in" && e.request_id.isSome)).map
    (fun e => e.turn)

/-! ## transport.py — RawStdioTransport -/

/-- One line arriving on stdin, at the interface of the stdlib
`json.loads`: either it decodes to a frame or raising
`json.JSONDecodeError` with some message. -/
inductive InLine where
  | good (raw : List Nat) (parsed : Frame)
  | bad (raw : List Nat) (msg : String)

/-- The flag state of `RawStdioTransport`: `started` models
`self._reader`/`self._stdout` being set by `start()`, `running` is the
`self.running` flag. -/
structure TransportState where
  started : Bool
  running : Bool

/-- `RawStdioTransport.close` (`transport.py` lines 99-101): it only
clears the `running` flag (and logs). -/
def RawStdioTransport.close (t : TransportState) : TransportState :=
  { t with running := false }

/-- `RawStdioTransport.read_message` (`transport.py` lines 41-78) applied
to one available input line.  Raises (`Except.error`) if `start()` was
never called.  A line that fails to parse is captured with `parsed={}` and
an error marker, and the call returns `none` — the same value the caller
receives at EOF.  A line that parses is captured (direction `in`) before
being returned.  The `running` flag is not consulted. -/
def read_one (hooks : Hooks) (t : TransportState) (eng : CaptureEngine)
    (line : InLine) (now : Nat) :
    Except String (Option Frame × CaptureEngine) :=
  if !t.started then Except.error "Transport not started"
  else
    match line with
    | InLine.good raw parsed =>
      Except.ok (some parsed,
        (CaptureEngine.capture hooks eng raw parsed now "in" Option.none Option.none).1)
    | InLine.bad raw msg =>
      Except.ok (Option.none,
        (CaptureEngine.capture hooks eng raw [] now "in" Option.none
          (some ("JSON parse error: " ++ msg))).1)

/-- `RawStdioTransport.read_message` over the whole pending input stream:
an empty stream is EOF (`readline` returns `b""`), which returns `none`
without capturing anything; otherwise the head line is consumed. -/
def read_message (hooks : Hooks) (t : TransportState) (eng : CaptureEngine)
    (stream : List InLine) (now : Nat) :
    Except String (Option Frame × CaptureEngine × List InLine) :=
  if !t.started then Except.error "Transport not started"
  else
    match stream with
    | [] => Except.ok (Option.none, eng, [])
    | l :: rest =>
      match read_one hooks t eng l now with
      | Except.error e => Except.error e
      | Except.ok (fr, eng') => Except.ok (fr, eng', rest)

/-- `RawStdioTransport.write_message` (`transport.py` lines 80-97): raises
if `start()` was never called (`self._stdout is None`); otherwise
serializes, captures the outbound frame tagged with the stringified
`request_id` (or no tag when `request_id is None`), and writes the bytes.
Returns the new engine state and the bytes written.  The `running` flag is
not consulted. -/
def write_message (hooks : Hooks) (t : TransportState) (eng : CaptureEngine)
    (message : Frame) (request_id : Option JValue) (now : Nat) :
    Except String (CaptureEngine × List Nat) :=
  if !t.started then Except.error "Transport not started"
  else
    Except.ok
      ((CaptureEngine.capture hooks eng (encodeFrame message) message now "out"
          (request_id.map pyStr) Option.none).1,
       encodeFrame message)

/-! ## server.py — RawMCPServer -/

/-- The read half of `RawMCPServer.run` (`server.py` lines 160-175): read a
message; `None` breaks the loop (logged as EOF); otherwise the frame is
handled and the loop continues.  The per-frame dispatch
(`_handle_message`) is abstracted to collecting the frames that reach it —
the loop structure and its termination condition are the point here.
Returns the final engine state and the frames that were dispatched. -/
def serverReadLoop (hooks : Hooks) (t : TransportState) :
    List InLine → CaptureEngine → Nat → CaptureEngine × List Frame
  | [], eng, _ => (eng, [])
  | l :: rest, eng, now =>
    match read_one hooks t eng l now with
    | Except.error _ => (eng, [])
    | Except.ok (Option.none, eng') => (eng', [])
    | Except.ok (some parsed, eng') =>
      let r := serverReadLoop hooks t rest eng' (now + 1)
      (r.1, parsed :: r.2)

/-- The orchestrator state that `RawMCPServer.shutdown` touches:
`running` is `self._running`; `db_init_task` is `self._db_init_task`
(`none` when never created, otherwise whether it is done); `db` is
`self._db` (`none` when never created, otherwise whether it has been
closed). -/
structure ServerSt where
  running : Bool
  db_init_task : Option Bool
  db : Option Bool
  transport : TransportState

/-- The externally visible steps `shutdown` can take, in order. -/
inductive ShutdownAction where
  | cancelInitTask
  | closeTransport
  | closeDb
deriving DecidableEq, Repr

/-- `RawMCPServer.shutdown` (`server.py` lines 223-245): returns
immediately when `self._running` is already false; otherwise clears the
flag, cancels the background init task if it is still running, closes the
transport, and closes the database if one was created.  The action list
records the side effects performed. -/
def RawMCPServer.shutdown (s : ServerSt) : ServerSt × List ShutdownAction :=
  if !s.running then (s, [])
  else
    ({ running := false
       db_init_task :=
         match s.db_init_task with
         | some false => some true
         | o => o
       db :=
         match s.db with
         | some _ => some true
         | Option.none => Option.none
       transport := RawStdioTransport.close s.transport },
     (match s.db_init_task with
      | some false => [ShutdownAction.cancelInitTask]
      | _ => []) ++
     [ShutdownAction.closeTransport] ++
     (match s.db with
      | some _ => [ShutdownAction.closeDb]
      | Option.none => []))

/-! ## router.py — Router tools/call dispatch -/

/-- A raised Python exception as seen by the router's `except Exception`
handler: either a `ProtocolError` the handler raised or any other
exception, both carrying their `str(...)` rendering. -/
inductive PyExc where
  | protocolExc (code : Int) (message : String)
  | other (message : String)

/-- The `str(exc)` rendering interpolated into the error content
(`ProtocolError.__init__` passes `message` to `Exception`). -/
def PyExc.message : PyExc → String
  | PyExc.protocolExc _ m => m
  | PyExc.other m => m

/-- One registered tools module (`Router.register_tools_module`,
`router.py` lines 44-51): the set of its tool names and its handler.  The
handler is dynamically typed as in Python and may raise. -/
abbrev ToolEntry := List String × (JValue → JValue → Except PyExc JValue)

/-- Python's `name in tool_names` where `tool_names` is a set of strings:
only an equal string is a member. -/
def jvalNameMember : JValue → List String → Bool
  | JValue.str s, names => names.contains s
  | _, _ => false

/-- The `for tool_names, handler in self._tool_handlers` loop of
`Router._handle_tools_call` (`router.py` lines 115-127): the first
registered module containing the name runs its handler; a raised exception
is converted into a successful `tool_result_content(..., is_error=True)`
payload; if no module contains the name the loop falls through to a
`METHOD_NOT_FOUND` protocol error. -/
def dispatchTools : List ToolEntry → JValue → JValue → Except ProtocolError JValue
  | [], name, _ =>
    Except.error ⟨METHOD_NOT_FOUND, "Unknown tool: " ++ pyStr name, Option.none⟩
  | (names, handler) :: rest, name, args =>
    if jvalNameMember name names then
      match handler name args with
      | Except.ok r => Except.ok r
      | Except.error exc =>
        Except.ok (JValue.obj
          (tool_result_content [text_content ("Tool error: " ++ exc.message)] true))
    else dispatchTools rest name args

/-- The handler `dispatchTools` would run for a name: the first registered
module whose name set contains it (the loop is deterministic, first
registrant wins). -/
def resolveTool : List ToolEntry → JValue → Option (JValue → JValue → Except PyExc JValue)
  | [], _ => Option.none
  | (names, handler) :: rest, name =>
    if jvalNameMember name names then some handler else resolveTool rest name

/-- The tool name `Router._handle_tools_call` extracts:
`params.get("name", "")`. -/
def toolNameOf (params : Frame) : JValue :=
  pyGetD params "name" (JValue.str "")

/-- The tool arguments `Router._handle_tools_call` extracts:
`params.get("arguments", {})`. -/
def toolArgsOf (params : Frame) : JValue :=
  pyGetD params "arguments" (JValue.obj [])

/-- `Router._handle_tools_call` (`router.py` lines 108-127): a falsy name
is an `INVALID_PARAMS` protocol error before any handler runs; otherwise
dispatch over the registered modules. -/
def Router.handle_tools_call (registry : List ToolEntry) (params : Frame) :
    Except ProtocolError JValue :=
  if pyFalsy (toolNameOf params) then
    Except.error ⟨INVALID_PARAMS, "Missing tool name", Option.none⟩
  else dispatchTools registry (toolNameOf params) (toolArgsOf params)

/-! ## Concrete scenario values used by witnesses and counterexamples -/

/-- A transport on which `start()` has completed. -/
def startedT : TransportState :=
  { started := true, running := true }

/-- The transport after `close()`. -/
def closedT : TransportState :=
  RawStdioTransport.close startedT

/-- A well-formed inbound request line (`ping`, id 1). -/
def pingFrame : Frame :=
  [("jsonrpc", JValue.str "2.0"), ("id", JValue.num 1), ("method", JValue.str "ping")]

/-- The ping request as an input line (raw bytes abbreviated). -/
def pingLine : InLine :=
  InLine.good [1, 2, 3] pingFrame

/-- A line that is not valid JSON, with the message `json.JSONDecodeError`
produces for it. -/
def badLine : InLine :=
  InLine.bad [110, 111, 116] "Expecting value: line 1 column 1 (char 0)"

/-- An inbound frame that carries an id but no method (a response-shaped
frame, e.g. a reply to server-initiated sampling). -/
def idOnlyFrame : Frame :=
  [("jsonrpc", JValue.str "2.0"), ("id", JValue.num 1)]

/-- An outbound response frame with id 7. -/
def respSeven : Frame :=
  [("jsonrpc", JValue.str "2.0"), ("id", JValue.num 7), ("result", JValue.obj [])]

/-- Inbound request with id 10 (`tools/call`). -/
def reqTen : Frame :=
  [("jsonrpc", JValue.str "2.0"), ("id", JValue.num 10), ("method", JValue.str "tools/call")]

/-- Inbound request with id 11 (`tools/call`). -/
def reqEleven : Frame :=
  [("jsonrpc", JValue.str "2.0"), ("id", JValue.num 11), ("method", JValue.str "tools/call")]

/-- Outbound response frame with id 11. -/
def respEleven : Frame :=
  [("jsonrpc", JValue.str "2.0"), ("id", JValue.num 11), ("result", JValue.obj [])]

/-- Outbound response frame with id 10. -/
def respTen : Frame :=
  [("jsonrpc", JValue.str "2.0"), ("id", JValue.num 10), ("result", JValue.obj [])]

/-- The engine after capturing the two inbound requests with ids 10 and 11,
in that order, with no responses yet. -/
def engTwoReqs : CaptureEngine :=
  (CaptureEngine.capture noHooks
    (CaptureEngine.capture noHooks CaptureEngine.init [] reqTen 1 "in"
      Option.none Option.none).1
    [] reqEleven 2 "in" Option.none Option.none).1

/-- The captured event of the request with id 11 (the second capture). -/
def reqElevenEvent : CaptureEvent :=
  (CaptureEngine.capture noHooks
    (CaptureEngine.capture noHooks CaptureEngine.init [] reqTen 1 "in"
      Option.none Option.none).1
    [] reqEleven 2 "in" Option.none Option.none).2

/-- The captured event of the request with id 10 (the first capture). -/
def reqTenEvent : CaptureEvent :=
  (CaptureEngine.capture noHooks CaptureEngine.init [] reqTen 1 "in"
    Option.none Option.none).2

/-- The engine after additionally capturing the outbound response for id 11
(responses arriving out of submission order). -/
def engTwoReqsRespEleven : CaptureEngine :=
  (CaptureEngine.capture noHooks engTwoReqs [] respEleven 3 "out"
    (some "11") Option.none).1

/-- Hooks in which every collaborator raises: the enrichment bridge, the
persistence sink and the single observer callback all fail. -/
def hooksBad : Hooks :=
  { bridge := some (fun _ => Except.error "bridge boom")
    db_sink := some (fun _ => Except.error "db down")
    callbacks := [fun _ => Except.error "callback fail"] }

/-- A registry with one tools module exposing tool `boom`, whose handler
always raises. -/
def failRegistry : List ToolEntry :=
  [(["boom"], fun _ _ => Except.error (PyExc.other "kaboom"))]

/-- `tools/call` params naming the `boom` tool. -/
def boomParams : Frame :=
  [("name", JValue.str "boom"), ("arguments", JValue.obj [])]

/-- A frame carrying the correct version tag plus all three of `method`,
`result` and `error`, together with an `id`. -/
def mixedFrame : Frame :=
  [("jsonrpc", JValue.str "2.0"), ("id", JValue.num 1), ("method", JValue.str "m"),
   ("result", JValue.obj []), ("error", JValue.obj [])]

/-- The frame a successful `read_one` returned, if any. -/
def readFrameOf (r : Except String (Option Frame × CaptureEngine)) : Option Frame :=
  match r with
  | Except.ok p => p.1
  | Except.error _ => Option.none

/-- How many events the engine holds after a `read_one` call. -/
def readEventCount (r : Except String (Option Frame × CaptureEngine)) : Nat :=
  match r with
  | Except.ok p => p.2.events.length
  | Except.error _ => 0

/-! ## Helper lemmas (shared) -/

theorem applyTurn_direction (eng : CaptureEngine) (ev : CaptureEvent) :
    (applyTurn eng ev).direction = ev.direction := by
  unfold applyTurn; split <;> rfl

theorem applyTurn_request_id (eng : CaptureEngine) (ev : CaptureEvent) :
    (applyTurn eng ev).request_id = ev.request_id := by
  unfold applyTurn; split <;> rfl

theorem applyLineage_direction (eng : CaptureEngine) (ev : CaptureEvent) :
    (applyLineage eng ev).direction = ev.direction := by
  unfold applyLineage
  split
  · split <;> rfl
  · rfl

theorem applyLineage_request_id (eng : CaptureEngine) (ev : CaptureEvent) :
    (applyLineage eng ev).request_id = ev.request_id := by
  unfold applyLineage
  split
  · split <;> rfl
  · rfl

theorem applyBridge_direction (hooks : Hooks) (ev : CaptureEvent) :
    (applyBridge hooks ev).direction = ev.direction := by
  unfold applyBridge
  split
  · rfl
  · split <;> rfl

theorem applyBridge_request_id (hooks : Hooks) (ev : CaptureEvent) :
    (applyBridge hooks ev).request_id = ev.request_id := by
  unfold applyBridge
  split
  · rfl
  · split <;> rfl

theorem applyBridge_turn (hooks : Hooks) (ev : CaptureEvent) :
    (applyBridge hooks ev).turn = ev.turn := by
  unfold applyBridge
  split
  · rfl
  · split <;> rfl

theorem applyBridge_parent (hooks : Hooks) (ev : CaptureEvent) :
    (applyBridge hooks ev).parent_protocol_id = ev.parent_protocol_id := by
  unfold applyBridge
  split
  · rfl
  · split <;> rfl

theorem applyTurn_skip (eng : CaptureEngine) (ev : CaptureEvent)
    (h : (ev.direction == "in") = false) : applyTurn eng ev = ev := by
  unfold applyTurn; simp [h]

theorem applyLineage_skip (eng : CaptureEngine) (ev : CaptureEvent)
    (h : (ev.direction == "out") = false) : applyLineage eng ev = ev := by
  unfold applyLineage; simp [h]

theorem capture_snd (hooks : Hooks) (eng : CaptureEngine) (raw : List Nat)
    (parsed : Frame) (ts : Nat) (dir : String) (ppid : Option String)
    (err : Option String) :
    (CaptureEngine.capture hooks eng raw parsed ts dir ppid err).2 =
      capturedEvent hooks eng raw parsed ts dir ppid err := rfl

theorem capture_events (hooks : Hooks) (eng : CaptureEngine) (raw : List Nat)
    (parsed : Frame) (ts : Nat) (dir : String) (ppid : Option String)
    (err : Option String) :
    (CaptureEngine.capture hooks eng raw parsed ts dir ppid err).1.events =
      eng.events ++ [capturedEvent hooks eng raw parsed ts dir ppid err] := rfl

theorem capturedEvent_direction (hooks : Hooks) (eng : CaptureEngine)
    (raw : List Nat) (parsed : Frame) (ts : Nat) (dir : String)
    (ppid : Option String) (err : Option String) :
    (capturedEvent hooks eng raw parsed ts dir ppid err).direction = dir := by
  unfold capturedEvent
  rw [applyBridge_direction, applyLineage_direction, applyTurn_direction]
  rfl

theorem capturedEvent_request_id (hooks : Hooks) (eng : CaptureEngine)
    (raw : List Nat) (parsed : Frame) (ts : Nat) (dir : String)
    (ppid : Option String) (err : Option String) :
    (capturedEvent hooks eng raw parsed ts dir ppid err).request_id =
      pyGet parsed "id" := by
  unfold capturedEvent
  rw [applyBridge_request_id, applyLineage_request_id, applyTurn_request_id]
  rfl

/-! ## C1 -/

/-- Claim C1 (code evaluation at the failing input): a malformed inbound
line is captured with the error marker — that half of the claim holds —
but `read_message` returns `None`, the very value `RawMCPServer.run`
treats as EOF, so the read loop terminates: no frame is ever dispatched
and the following well-formed request line is never read.  The claim (and
the docstring of `read_message`, which reserves `None` for EOF) says the
loop continues. -/
theorem C1_bad_line_terminates_loop :
    (serverReadLoop noHooks startedT [badLine, pingLine] CaptureEngine.init 0).2 = [] ∧
    (serverReadLoop noHooks startedT [badLine, pingLine] CaptureEngine.init 0).1.events.map
        (fun e => e.error) =
      [some "JSON parse error: Expecting value: line 1 column 1 (char 0)"] :=
  ⟨rfl, rfl⟩

/-! ## C2 counterexample -/

/-- Claim C2 is false as stated: an inbound frame that carries an id but no
method still increments the turn counter (`capture.py` line 150 tests only
`direction == "in" and event.request_id is not None`). -/
theorem C2_counterexample :
    hasKey idOnlyFrame "method" = false ∧
    (CaptureEngine.capture noHooks CaptureEngine.init [] idOnlyFrame 5 "in"
        Option.none Option.none).1.turn_counter = 1 :=
  ⟨rfl, rfl⟩

/-! ## C3 counterexample -/

/-- Claim C3 is false as stated: when the transport tags an outbound write
with a correlation id (`write_message` passes
`parent_protocol_id=str(request_id)` for every response carrying an id),
and the lineage map has no entry under that id, the outbound event still
carries a back-reference — the transport's tag is retained, not cleared. -/
theorem C3_counterexample :
    lookupAssoc CaptureEngine.init.request_map "7" = Option.none ∧
    (CaptureEngine.capture noHooks CaptureEngine.init [] respSeven 9 "out"
        (some "7") Option.none).2.parent_protocol_id = some "7" :=
  ⟨rfl, rfl⟩

/-! ## C7 -/

/-- Claim C7: round-trip — `validate_message(make_response(id, result))`
classifies as `response` for every id and result, and
`validate_message(make_error(id, code, message, data))` classifies as
`error` for every id (including null), code, message and optional data. -/
theorem C7_roundtrip (rid result : JValue) (code : Int) (msg : String)
    (data : Option JValue) :
    validate_message (JValue.obj (make_response rid result)) = Except.ok "response" ∧
    validate_message (JValue.obj (make_error rid code msg data)) = Except.ok "error" :=
  ⟨rfl, rfl⟩

/-! ## C9 -/

/-- Claim C9: `shutdown` is idempotent — after one call the `_running`
guard makes the second call return immediately, with the same state and no
further cancel/close actions. -/
theorem C9_shutdown_idempotent (s : ServerSt) :
    RawMCPServer.shutdown (RawMCPServer.shutdown s).1 =
      ((RawMCPServer.shutdown s).1, ([] : List ShutdownAction)) := by
  cases hr : s.running <;> simp [RawMCPServer.shutdown, hr]

/-! ## C10 -/

/-- Claim C10: `validate_message` gives `method` precedence — any map with
the correct version tag and a `method` key classifies as `request` (with
`id`) or `notification` (without), whatever other keys are present; such a
frame is never rejected. -/
theorem C10_method_precedence (fields : Frame)
    (hv : lookupAssoc fields "jsonrpc" = some (JValue.str "2.0"))
    (hm : hasKey fields "method" = true) :
    validate_message (JValue.obj fields) =
      Except.ok (if hasKey fields "id" then "request" else "notification") := by
  simp [validate_message, hv, hm]

/-- Witness for C10 at a frame carrying `method`, `result` and `error`
together with an `id`: classified as a request, not rejected. -/
theorem C10_witness :
    lookupAssoc mixedFrame "jsonrpc" = some (JValue.str "2.0") ∧
    hasKey mixedFrame "method" = true ∧
    hasKey mixedFrame "result" = true ∧
    hasKey mixedFrame "error" = true ∧
    validate_message (JValue.obj mixedFrame) = Except.ok "request" :=
  ⟨rfl, rfl, rfl, rfl, C10_method_precedence mixedFrame rfl rfl⟩

/-! ## C8 -/

/-- Claim C8 is false as stated: after `close()` a `read_message` call is
neither a no-op nor a fast failure — it reads the pending line, captures
an event (I/O and state change) and returns the frame, exactly as before
close. -/
theorem C8_counterexample :
    closedT.running = false ∧
    readFrameOf (read_one noHooks closedT CaptureEngine.init pingLine 5) = some pingFrame ∧
    readEventCount (read_one noHooks closedT CaptureEngine.init pingLine 5) = 1 :=
  ⟨rfl, rfl, rfl⟩

/-- Claim C8 as amended: `close()` only clears the `running` flag; neither
`read_message` nor `write_message` consults it, so after `close()` both
behave exactly as before (they fail fast only when the transport was never
started). -/
theorem C8_close_clears_flag_only (hooks : Hooks) (t : TransportState)
    (eng : CaptureEngine) (line : InLine) (stream : List InLine) (now : Nat)
    (message : Frame) (rid : Option JValue) :
    (RawStdioTransport.close t).running = false ∧
    (RawStdioTransport.close t).started = t.started ∧
    read_one hooks (RawStdioTransport.close t) eng line now =
      read_one hooks t eng line now ∧
    read_message hooks (RawStdioTransport.close t) eng stream now =
      read_message hooks t eng stream now ∧
    write_message hooks (RawStdioTransport.close t) eng message rid now =
      write_message hooks t eng message rid now :=
  ⟨rfl, rfl, rfl, rfl, rfl⟩

theorem applyLineage_miss_id (eng : CaptureEngine) (ev : CaptureEvent)
    (hid : ev.request_id = Option.none) : applyLineage eng ev = ev := by
  unfold applyLineage; simp [hid]

theorem applyLineage_miss_map (eng : CaptureEngine) (ev : CaptureEvent)
    (rid : JValue) (hid : ev.request_id = some rid)
    (hl : lookupAssoc eng.request_map (pyStr rid) = Option.none) :
    applyLineage eng ev = ev := by
  unfold applyLineage
  simp [hid, hl]

theorem applyLineage_hit (eng : CaptureEngine) (ev : CaptureEvent)
    (rid : JValue) (parent : CaptureEvent)
    (hdir : ev.direction = "out") (hid : ev.request_id = some rid)
    (hl : lookupAssoc eng.request_map (pyStr rid) = some parent) :
    applyLineage eng ev =
      { ev with parent_protocol_id := some parent.event_id, turn := parent.turn } := by
  unfold applyLineage
  simp [hdir, hid, hl]

theorem out_beq_in_false : (("out" : String) == "in") = false := by decide

theorem in_beq_out_false : (("in" : String) == "out") = false := by decide

/-! ## C3 amended -/

/-- Claim C3 as amended: on an outbound capture the back-reference is the
tracked inbound event's identifier when the lineage map holds an entry
under the stringified id (entries exist for every inbound frame that
carried an id, method or not, and are never removed); otherwise the event
retains whatever correlation tag the transport supplied — absent only when
the transport supplied none. -/
theorem C3_backref_policy (hooks : Hooks) (eng : CaptureEngine)
    (raw : List Nat) (parsed : Frame) (ts : Nat) (ppid : Option String)
    (err : Option String) :
    (CaptureEngine.capture hooks eng raw parsed ts "out" ppid err).2.parent_protocol_id =
      (match pyGet parsed "id" with
       | some rid =>
         (match lookupAssoc eng.request_map (pyStr rid) with
          | some parent => some parent.event_id
          | Option.none => ppid)
       | Option.none => ppid) := by
  rw [capture_snd]
  unfold capturedEvent
  rw [applyBridge_parent,
    applyTurn_skip eng (baseEvent eng raw parsed ts "out" ppid err) out_beq_in_false]
  cases hid : pyGet parsed "id" with
  | none =>
    rw [applyLineage_miss_id eng _ hid]
    rfl
  | some rid =>
    cases hl : lookupAssoc eng.request_map (pyStr rid) with
    | none =>
      rw [applyLineage_miss_map eng _ rid hid hl]
      simp [hl]
      rfl
    | some parent =>
      rw [applyLineage_hit eng _ rid parent rfl hid hl]
      simp [hl]

/-! ## C4 -/

/-- Claim C4: an outbound frame whose id is tracked in the lineage map is
correlated by id — the outbound event copies the tracked request event's
turn and points its back-reference at that event's identifier, whatever
engine state (and hence whatever interleaving of other in-flight
requests) produced the map. -/
theorem C4_response_correlation (hooks : Hooks) (eng : CaptureEngine)
    (raw : List Nat) (parsed : Frame) (ts : Nat) (ppid : Option String)
    (err : Option String) (rid : JValue) (parent : CaptureEvent)
    (hid : pyGet parsed "id" = some rid)
    (hl : lookupAssoc eng.request_map (pyStr rid) = some parent) :
    (CaptureEngine.capture hooks eng raw parsed ts "out" ppid err).2.turn = parent.turn ∧
    (CaptureEngine.capture hooks eng raw parsed ts "out" ppid err).2.parent_protocol_id =
      some parent.event_id := by
  rw [capture_snd]
  unfold capturedEvent
  rw [applyTurn_skip eng (baseEvent eng raw parsed ts "out" ppid err) out_beq_in_false,
    applyLineage_hit eng _ rid parent rfl hid hl, applyBridge_turn, applyBridge_parent]
  exact ⟨rfl, rfl⟩

/-- Witness for C4, on the spec's out-of-order scenario: requests 10 and 11
are captured, then the response for 11 (out of submission order), and the
response for 10 is captured last — it still correlates to the id-10
request event (turn 1), not to anything arrival-order based. -/
theorem C4_witness :
    pyGet respTen "id" = some (JValue.num 10) ∧
    lookupAssoc engTwoReqsRespEleven.request_map (pyStr (JValue.num 10)) = some reqTenEvent ∧
    reqTenEvent.turn = 1 ∧
    ((CaptureEngine.capture noHooks engTwoReqsRespEleven [] respTen 4 "out"
        (some "10") Option.none).2.turn = reqTenEvent.turn ∧
      (CaptureEngine.capture noHooks engTwoReqsRespEleven [] respTen 4 "out"
        (some "10") Option.none).2.parent_protocol_id = some reqTenEvent.event_id) :=
  ⟨rfl, rfl, rfl,
    C4_response_correlation noHooks engTwoReqsRespEleven [] respTen 4 (some "10")
      Option.none (JValue.num 10) reqTenEvent rfl rfl⟩

/-! ## C5 -/

theorem statsGet_statsBump_self (s : List (String × Nat)) (k : String) :
    statsGet (statsBump s k) k = statsGet s k + 1 := by
  induction s with
  | nil => simp [statsBump, statsGet, lookupAssoc]
  | cons p rest ih =>
    obtain ⟨k0, v⟩ := p
    by_cases h : k0 = k
    · subst h; simp [statsBump, statsGet, lookupAssoc]
    · have hb : (k0 == k) = false := by simp [h]
      have e1 : statsBump ((k0, v) :: rest) k = (k0, v) :: statsBump rest k := by
        simp [statsBump, hb]
      have e2 : ∀ (l : List (String × Nat)), statsGet ((k0, v) :: l) k = statsGet l k := by
        intro l; simp [statsGet, lookupAssoc, hb]
      rw [e1, e2, e2, ih]

theorem statsGet_statsBump_ne (s : List (String × Nat)) (k k' : String)
    (h : k' ≠ k) : statsGet (statsBump s k) k' = statsGet s k' := by
  induction s with
  | nil =>
    have hb : (k == k') = false := by simp [Ne.symm h]
    simp [statsBump, statsGet, lookupAssoc, hb]
  | cons p rest ih =>
    obtain ⟨k0, v⟩ := p
    by_cases h0 : k0 = k
    · subst h0
      have hb : (k0 == k') = false := by simp [Ne.symm h]
      simp [statsBump, statsGet, lookupAssoc, hb]
    · have hb : (k0 == k) = false := by simp [h0]
      have e1 : statsBump ((k0, v) :: rest) k = (k0, v) :: statsBump rest k := by
        simp [statsBump, hb]
      rw [e1]
      by_cases h1 : k0 = k'
      · subst h1; simp [statsGet, lookupAssoc]
      · have hb1 : (k0 == k') = false := by simp [h1]
        have e2 : ∀ (l : List (String × Nat)), statsGet ((k0, v) :: l) k' = statsGet l k' := by
          intro l; simp [statsGet, lookupAssoc, hb1]
        rw [e2, e2, ih]

/-- Claim C5: whatever the attached enrichment bridge, persistence sink and
observer callbacks do — including all of them raising — `capture` returns
normally (it is a total function of their behaviours: every failure branch
is caught where the source catches, logs and swallows), the event is still
appended to the in-memory list, and the grand total counter still
advances. -/
theorem C5_capture_isolated (hooks : Hooks) (eng : CaptureEngine)
    (raw : List Nat) (parsed : Frame) (ts : Nat) (dir : String)
    (ppid : Option String) (err : Option String)
    (hdir : dir = "in" ∨ dir = "out") :
    (CaptureEngine.capture hooks eng raw parsed ts dir ppid err).1.events =
      eng.events ++ [(CaptureEngine.capture hooks eng raw parsed ts dir ppid err).2] ∧
    statsGet (CaptureEngine.capture hooks eng raw parsed ts dir ppid err).1.stats "total" =
      statsGet eng.stats "total" + 1 := by
  constructor
  · rfl
  · show statsGet
        (statsBump
          (statsBump eng.stats (dir ++ "_" ++ (if dir == "in" then "received" else "sent")))
          "total") "total" = statsGet eng.stats "total" + 1
    rw [statsGet_statsBump_self]
    have hne : ("total" : String) ≠ dir ++ "_" ++ (if dir == "in" then "received" else "sent") := by
      rcases hdir with h | h <;> subst h <;> decide
    rw [statsGet_statsBump_ne _ _ _ hne]

/-- Witness for C5: with a bridge, a sink and a callback that all raise,
capturing an inbound frame still appends the event and bumps the total. -/
theorem C5_witness :
    (("in" : String) = "in" ∨ ("in" : String) = "out") ∧
    ((CaptureEngine.capture hooksBad CaptureEngine.init [] pingFrame 1 "in"
          Option.none Option.none).1.events =
        CaptureEngine.init.events ++
          [(CaptureEngine.capture hooksBad CaptureEngine.init [] pingFrame 1 "in"
              Option.none Option.none).2] ∧
      statsGet (CaptureEngine.capture hooksBad CaptureEngine.init [] pingFrame 1 "in"
          Option.none Option.none).1.stats "total" =
        statsGet CaptureEngine.init.stats "total" + 1) :=
  ⟨Or.inl rfl,
    C5_capture_isolated hooksBad CaptureEngine.init [] pingFrame 1 "in"
      Option.none Option.none (Or.inl rfl)⟩

/-! ## C2 amended -/

theorem capture_turn_counter (hooks : Hooks) (eng : CaptureEngine)
    (raw : List Nat) (parsed : Frame) (ts : Nat) (dir : String)
    (ppid : Option String) (err : Option String) :
    (CaptureEngine.capture hooks eng raw parsed ts dir ppid err).1.turn_counter =
      if dir == "in" && (pyGet parsed "id").isSome then eng.turn_counter + 1
      else eng.turn_counter := rfl

theorem capturedEvent_turn_in (hooks : Hooks) (eng : CaptureEngine)
    (raw : List Nat) (parsed : Frame) (ts : Nat) (dir : String)
    (ppid : Option String) (err : Option String)
    (hdir : dir = "in") (hid : (pyGet parsed "id").isSome = true) :
    (capturedEvent hooks eng raw parsed ts dir ppid err).turn = eng.turn_counter + 1 := by
  subst hdir
  unfold capturedEvent
  have hskip : ((applyTurn eng (baseEvent eng raw parsed ts "in" ppid err)).direction
      == "out") = false := by
    rw [applyTurn_direction]
    exact in_beq_out_false
  rw [applyBridge_turn, applyLineage_skip eng _ hskip]
  unfold applyTurn
  have hc : ((baseEvent eng raw parsed ts "in" ppid err).direction == "in" &&
      (baseEvent eng raw parsed ts "in" ppid err).request_id.isSome) = true := by
    show (("in" : String) == "in" && (pyGet parsed "id").isSome) = true
    simp [hid]
  rw [if_pos hc]

theorem capturedEvent_pred (hooks : Hooks) (eng : CaptureEngine)
    (raw : List Nat) (parsed : Frame) (ts : Nat) (dir : String)
    (ppid : Option String) (err : Option String) :
    ((capturedEvent hooks eng raw parsed ts dir ppid err).direction == "in" &&
      (capturedEvent hooks eng raw parsed ts dir ppid err).request_id.isSome) =
      (dir == "in" && (pyGet parsed "id").isSome) := by
  rw [capturedEvent_direction, capturedEvent_request_id]

theorem inboundIdTurns_snoc (a : List CaptureEvent) (e : CaptureEvent) :
    inboundIdTurns (a ++ [e]) =
      inboundIdTurns a ++
        (if (e.direction == "in" && e.request_id.isSome) = true then [e.turn] else []) := by
  unfold inboundIdTurns
  rw [List.filter_append, List.map_append]
  by_cases hp : (e.direction == "in" && e.request_id.isSome) = true
  · simp [hp]
  · rw [Bool.not_eq_true] at hp
    simp [hp]

theorem runCaptures_spec (hooks : Hooks) (tr : List CapInput) :
    ∀ eng : CaptureEngine,
      (runCaptures hooks eng tr).turn_counter =
        eng.turn_counter + (tr.filter isRequestInput).length ∧
      inboundIdTurns (runCaptures hooks eng tr).events =
        inboundIdTurns eng.events ++
          List.range' (eng.turn_counter + 1) (tr.filter isRequestInput).length := by
  induction tr with
  | nil =>
    intro eng
    constructor
    · simp [runCaptures]
    · simp [runCaptures, List.range']
  | cons i rest ih =>
    intro eng
    have hrun : runCaptures hooks eng (i :: rest) =
        runCaptures hooks
          (CaptureEngine.capture hooks eng i.raw i.parsed i.ts i.dir i.ppid i.err).1
          rest := rfl
    rw [hrun]
    obtain ⟨ih1, ih2⟩ :=
      ih (CaptureEngine.capture hooks eng i.raw i.parsed i.ts i.dir i.ppid i.err).1
    have hev := capture_events hooks eng i.raw i.parsed i.ts i.dir i.ppid i.err
    by_cases hreq : isRequestInput i = true
    · have hreqc : (i.dir == "in" && (pyGet i.parsed "id").isSome) = true := hreq
      have hfil : (i :: rest).filter isRequestInput = i :: rest.filter isRequestInput := by
        simp [List.filter_cons, hreq]
      have htc : (CaptureEngine.capture hooks eng i.raw i.parsed i.ts i.dir i.ppid
          i.err).1.turn_counter = eng.turn_counter + 1 := by
        rw [capture_turn_counter, if_pos hreqc]
      have hreq' := hreqc
      rw [Bool.and_eq_true] at hreq'
      obtain ⟨hd, hid⟩ := hreq'
      have hdir : i.dir = "in" := by simpa using hd
      have hturn := capturedEvent_turn_in hooks eng i.raw i.parsed i.ts i.dir i.ppid
        i.err hdir hid
      have hpred : ((capturedEvent hooks eng i.raw i.parsed i.ts i.dir i.ppid
            i.err).direction == "in" &&
          (capturedEvent hooks eng i.raw i.parsed i.ts i.dir i.ppid
            i.err).request_id.isSome) = true := by
        rw [capturedEvent_pred]; exact hreqc
      constructor
      · rw [ih1, htc, hfil]
        simp [List.length_cons]
        omega
      · rw [ih2, htc, hev, inboundIdTurns_snoc, if_pos hpred, hturn, hfil]
        rw [List.append_assoc]
        congr 1
    · have hreqf : isRequestInput i = false := by
        rw [Bool.not_eq_true] at hreq; exact hreq
      have hreqc : (i.dir == "in" && (pyGet i.parsed "id").isSome) = false := hreqf
      have hfil : (i :: rest).filter isRequestInput = rest.filter isRequestInput := by
        simp [List.filter_cons, hreqf]
      have htc : (CaptureEngine.capture hooks eng i.raw i.parsed i.ts i.dir i.ppid
          i.err).1.turn_counter = eng.turn_counter := by
        rw [capture_turn_counter, hreqc]
        rfl
      have hpred : ((capturedEvent hooks eng i.raw i.parsed i.ts i.dir i.ppid
            i.err).direction == "in" &&
          (capturedEvent hooks eng i.raw i.parsed i.ts i.dir i.ppid
            i.err).request_id.isSome) = false := by
        rw [capturedEvent_pred]; exact hreqc
      constructor
      · rw [ih1, htc, hfil]
      · rw [ih2, htc, hev, inboundIdTurns_snoc, hfil]
        simp [hpred]

/-- Claim C2 as amended: the Capture Engine's turn counter is incremented
exactly once per inbound captured frame that carries an id — whether or
not it also carries a method, and never for outbound frames or inbound
frames without an id.  Across a session started from a fresh engine, the
turn numbers assigned to those inbound id-carrying frames are exactly
1, 2, 3, ...: strictly increasing, each equal to the count of such frames
seen so far. -/
theorem C2_turn_numbering (hooks : Hooks) (tr : List CapInput) :
    (runCaptures hooks CaptureEngine.init tr).turn_counter =
      (tr.filter isRequestInput).length ∧
    inboundIdTurns (runCaptures hooks CaptureEngine.init tr).events =
      List.range' 1 (tr.filter isRequestInput).length := by
  obtain ⟨h1, h2⟩ := runCaptures_spec hooks tr CaptureEngine.init
  constructor
  · simpa [CaptureEngine.init] using h1
  · simpa [CaptureEngine.init, inboundIdTurns] using h2

/-! ## C6 -/

theorem dispatchTools_not_found (reg : List ToolEntry) (name args : JValue)
    (hres : resolveTool reg name = Option.none) :
    dispatchTools reg name args =
      Except.error ⟨METHOD_NOT_FOUND, "Unknown tool: " ++ pyStr name, Option.none⟩ := by
  induction reg with
  | nil => rfl
  | cons e rest ih =>
    obtain ⟨names, handler⟩ := e
    by_cases hm : jvalNameMember name names = true
    · simp [resolveTool, hm] at hres
    · simp [resolveTool, hm] at hres
      simp [dispatchTools, hm]
      exact ih hres

theorem dispatchTools_handler_err (reg : List ToolEntry) (name args : JValue)
    (handler : JValue → JValue → Except PyExc JValue) (exc : PyExc)
    (hres : resolveTool reg name = some handler)
    (herr : handler name args = Except.error exc) :
    dispatchTools reg name args =
      Except.ok (JValue.obj (tool_result_content
        [text_content ("Tool error: " ++ exc.message)] true)) := by
  induction reg with
  | nil => simp [resolveTool] at hres
  | cons e rest ih =>
    obtain ⟨names, h0⟩ := e
    by_cases hm : jvalNameMember name names = true
    · simp [resolveTool, hm] at hres
      subst hres
      simp [dispatchTools, hm, herr]
    · simp [resolveTool, hm] at hres
      simp [dispatchTools, hm]
      exact ih hres

/-- Claim C6: for `tools/call`, a missing (falsy) tool name is an
`INVALID_PARAMS` protocol error and an unregistered name is a
`METHOD_NOT_FOUND` protocol error — both raised before any handler runs;
once a handler is resolved, its raising any exception yields a
*successful* response whose payload is `tool_result_content(..., is_error
=True)`, never a protocol-level error; and that payload carries the
`isError` marker. -/
theorem C6_tool_errors_not_protocol_errors :
    (∀ (registry : List ToolEntry) (params : Frame),
        pyFalsy (toolNameOf params) = true →
        Router.handle_tools_call registry params =
          Except.error ⟨INVALID_PARAMS, "Missing tool name", Option.none⟩) ∧
    (∀ (registry : List ToolEntry) (params : Frame),
        pyFalsy (toolNameOf params) = false →
        resolveTool registry (toolNameOf params) = Option.none →
        Router.handle_tools_call registry params =
          Except.error ⟨METHOD_NOT_FOUND, "Unknown tool: " ++ pyStr (toolNameOf params),
            Option.none⟩) ∧
    (∀ (registry : List ToolEntry) (params : Frame)
        (handler : JValue → JValue → Except PyExc JValue) (exc : PyExc),
        pyFalsy (toolNameOf params) = false →
        resolveTool registry (toolNameOf params) = some handler →
        handler (toolNameOf params) (toolArgsOf params) = Except.error exc →
        Router.handle_tools_call registry params =
          Except.ok (JValue.obj (tool_result_content
            [text_content ("Tool error: " ++ exc.message)] true))) ∧
    (∀ content : List JValue,
        lookupAssoc (tool_result_content content true) "isError" =
          some (JValue.bool true)) := by
  refine ⟨?_, ?_, ?_, ?_⟩
  · intro reg params hf
    simp [Router.handle_tools_call, hf]
  · intro reg params hf hres
    simp only [Router.handle_tools_call, hf, Bool.false_eq_true, if_false]
    exact dispatchTools_not_found reg _ _ hres
  · intro reg params handler exc hf hres herr
    simp only [Router.handle_tools_call, hf, Bool.false_eq_true, if_false]
    exact dispatchTools_handler_err reg _ _ handler exc hres herr
  · intro content
    rfl

/-- Witness for C6: a registry whose only tool handler always raises — the
router answers the `tools/call` with a successful `isError` payload, not a
protocol error. -/
theorem C6_witness :
    pyFalsy (toolNameOf boomParams) = false ∧
    Router.handle_tools_call failRegistry boomParams =
      Except.ok (JValue.obj (tool_result_content
        [text_content ("Tool error: " ++ (PyExc.other "kaboom").message)] true)) :=
  ⟨rfl,
    C6_tool_errors_not_protocol_errors.2.2.1 failRegistry boomParams
      (fun _ _ => Except.error (PyExc.other "kaboom")) (PyExc.other "kaboom")
      rfl rfl rfl⟩
